import Mathlib

/-!
Shallow embedding of the LexiQuest vocabulary-quiz application
(React + TypeScript; files `src/App.tsx`, `src/components/Button.tsx`,
which also contains the QuizCard component, and
`src/services/geminiService.ts`).

JavaScript strings are modelled as Lean `String` values, with
`String.prototype.includes` and `String.prototype.trim` re-implemented on
the underlying character lists.  JavaScript numbers that only ever hold
non-negative integers are modelled as `Nat`; the single comparison that
can observe `-1` (`currentWordIndex >= words.length - 1`) is carried out
in `Int`, exactly as JavaScript evaluates it.  The nondeterministic
outside world (the two Gemini network calls) is modelled by an explicit
response parameter: each possible behaviour of the remote call (throwing,
returning an empty body, returning parsed data) is one constructor, and
the embedded functions are total over it.
-/

/-! ### JavaScript string primitives -/

/-- Auxiliary for `occursIn`: `listPrefixOf needle hay` is true iff
`needle` is a prefix of `hay`. -/
def listPrefixOf : List Char → List Char → Bool
  | [], _ => true
  | _ :: _, [] => false
  | a :: as, b :: bs => a == b && listPrefixOf as bs

/-- `occursIn needle hay` is true iff `needle` occurs as a contiguous
substring of `hay`.  This is `String.prototype.includes`, transcribed on
character lists. -/
def occursIn (needle : List Char) : List Char → Bool
  | [] => listPrefixOf needle []
  | c :: t => listPrefixOf needle (c :: t) || occursIn needle t

/-- `jsIncludes s sub` models the JavaScript expression `s.includes(sub)`. -/
def jsIncludes (s sub : String) : Bool :=
  occursIn sub.data s.data

/-- `jsTrim s` models `s.trim()`: leading and trailing whitespace removed. -/
def jsTrim (s : String) : String :=
  String.mk (((s.data.dropWhile Char.isWhitespace).reverse.dropWhile
    Char.isWhitespace).reverse)

/-! ### Data model (`src/types.ts`, inlined into the bundle) -/

/-- The two selectable proficiency levels (`VocabularyLevel` in the source). -/
inductive VocabularyLevel where
  | CET6
  | KAOYAN
deriving DecidableEq

/-- One vocabulary item (`WordItem` in the source).  The source field
`example` is renamed `exampleSentence` because `example` is a Lean
keyword; all other names are kept. -/
structure WordItem where
  word : String
  phonetic : String
  meanings : List String
  exampleSentence : String
  exampleTranslation : String
deriving DecidableEq

/-- The session state (`QuizState` in the source). -/
structure QuizState where
  currentWordIndex : Nat
  words : List WordItem
  score : Nat
  totalAnswered : Nat
  streak : Nat
  isFinished : Bool
deriving DecidableEq

/-- The outer loading lifecycle (`LoadingState` in the source). -/
inductive LoadingState where
  | IDLE
  | LOADING
  | ERROR
  | READY
deriving DecidableEq

/-- The verification outcome stored by the quiz card (`CheckResult` in the
source; `explanation` is an optional field there). -/
structure CheckResult where
  isCorrect : Bool
  userAnswer : String
  explanation : Option String
deriving DecidableEq

/-! ### `src/services/geminiService.ts` -/

/-- Possible behaviours of the `generateContent` call made by
`fetchWordBatch`: the call (or the subsequent `JSON.parse`) throws, the
response body is empty (`!text`), or it parses to a word list. -/
inductive FetchResponse where
  | fail
  | emptyText
  | ok (ws : List WordItem)

/-- `fetchWordBatch` (geminiService.ts, lines 27–51).  On a thrown error
it rethrows (`Except.error`); on an empty response body it returns `[]`
(`if (!text) return [];`); otherwise it returns the parsed batch.  The
`level` and `count` arguments only shape the prompt text and do not
affect control flow. -/
def fetchWordBatch (_level : VocabularyLevel) (_count : Nat)
    (resp : FetchResponse) : Except Unit (List WordItem) :=
  match resp with
  | .fail => .error ()
  | .emptyText => .ok []
  | .ok ws => .ok ws

/-- The JSON object `{ isCorrect, explanation }` produced by the semantic
oracle in `smartCheckAnswer`. -/
structure CheckOutcome where
  isCorrect : Bool
  explanation : String
deriving DecidableEq

/-- Possible behaviours of the `generateContent` call made by
`smartCheckAnswer`: the call (or `JSON.parse`) throws, the response body
is empty, or it parses to a `CheckOutcome`. -/
inductive OracleResp where
  | fail
  | emptyText
  | parsed (r : CheckOutcome)

/-- The bidirectional-containment fallback heuristic of
`smartCheckAnswer` (geminiService.ts, line 94):
`correctMeanings.some(m => userAnswer.includes(m) || m.includes(userAnswer))`. -/
def strictMatch (correctMeanings : List String) (userAnswer : String) : Bool :=
  correctMeanings.any fun m => jsIncludes userAnswer m || jsIncludes m userAnswer

/-- `smartCheckAnswer` (geminiService.ts, lines 61–98).  On an empty
response body it returns `{isCorrect:false, explanation:"无法验证"}`; on a
parsed response it returns that response verbatim; if the call throws it
falls back to the containment heuristic, with explanation `"Local match"`
when the heuristic matches and `"API Error"` otherwise.  It never
rethrows. -/
def smartCheckAnswer (_word : String) (correctMeanings : List String)
    (userAnswer : String) (resp : OracleResp) : CheckOutcome :=
  match resp with
  | .emptyText => ⟨false, "无法验证"⟩
  | .parsed r => r
  | .fail =>
      let isStrictMatch := strictMatch correctMeanings userAnswer
      ⟨isStrictMatch, if isStrictMatch then "Local match" else "API Error"⟩

/-! ### `src/App.tsx` -/

/-- `INITIAL_QUIZ_STATE` (App.tsx, lines 7–14). -/
def INITIAL_QUIZ_STATE : QuizState :=
  { currentWordIndex := 0
    words := []
    score := 0
    totalAnswered := 0
    streak := 0
    isFinished := false }

/-- The pieces of React state held by the `App` component. -/
structure AppState where
  loadingState : LoadingState
  selectedLevel : VocabularyLevel
  quizState : QuizState
  errorMsg : String
deriving DecidableEq

/-- The initial React state of `App` (App.tsx, lines 17–20). -/
def initialAppState : AppState :=
  { loadingState := .IDLE
    selectedLevel := .CET6
    quizState := INITIAL_QUIZ_STATE
    errorMsg := "" }

/-- `startGame` (App.tsx, lines 22–39), as a state transformer indexed by
the behaviour of the batch fetch.  It sets `LOADING`, clears the error
message, and awaits `fetchWordBatch(level, 5)`.  On success (any word
list, including the empty one) it installs the batch over a fresh
`INITIAL_QUIZ_STATE` and sets `READY`; on a thrown error it sets the
error message and the `ERROR` loading state, leaving `quizState`
untouched. -/
def startGame (level : VocabularyLevel) (resp : FetchResponse)
    (s : AppState) : AppState :=
  let s1 : AppState :=
    { s with loadingState := .LOADING, selectedLevel := level, errorMsg := "" }
  match fetchWordBatch level 5 resp with
  | .ok words =>
      { s1 with
        quizState := { INITIAL_QUIZ_STATE with words := words }
        loadingState := .READY }
  | .error _ =>
      { s1 with
        errorMsg := "Failed to generate vocabulary. Please check your connection or API key."
        loadingState := .ERROR }

/-- `handleNextWord` (App.tsx, lines 41–63), the `advance` operation.
The comparison `prev.currentWordIndex >= prev.words.length - 1` is taken
in `Int`, as JavaScript takes it (for an empty word list the right-hand
side is `-1`). -/
def handleNextWord (wasCorrect : Bool) (prev : QuizState) : QuizState :=
  if (prev.currentWordIndex : Int) ≥ (prev.words.length : Int) - 1 then
    { prev with
      score := if wasCorrect then prev.score + 1 else prev.score
      totalAnswered := prev.totalAnswered + 1
      streak := if wasCorrect then prev.streak + 1 else 0
      isFinished := true }
  else
    { prev with
      score := if wasCorrect then prev.score + 1 else prev.score
      totalAnswered := prev.totalAnswered + 1
      streak := if wasCorrect then prev.streak + 1 else 0
      currentWordIndex := prev.currentWordIndex + 1 }

/-- A fresh session holding the batch `ws` followed by one
`handleNextWord` call per recorded outcome in `outs`. -/
def runSession (ws : List WordItem) (outs : List Bool) : QuizState :=
  outs.foldl (fun s b => handleNextWord b s) { INITIAL_QUIZ_STATE with words := ws }

/-- `Math.round`, on exact rational arithmetic: round half toward
positive infinity. -/
def jsMathRound (x : ℚ) : ℤ := ⌊x + 1 / 2⌋

/-- The accuracy figure computed by `renderResult` (App.tsx, line 183):
`Math.round((quizState.score / quizState.words.length) * 100)`.  Number
arithmetic is modelled exactly (the reachable values here are small
enough that IEEE doubles round to the same integers). -/
def accuracyPercent (s : QuizState) : ℤ :=
  jsMathRound ((s.score : ℚ) / (s.words.length : ℚ) * 100)

/-! ### The QuizCard component (`src/components/Button.tsx`) -/

/-- What one call to `QuizCard.handleSubmit` does, observably: the
`CheckResult` it stores via `setResult` (`none` when the early return is
taken and nothing is stored), and whether `smartCheckAnswer` — the
oracle — was invoked. -/
structure SubmitResult where
  result : Option CheckResult
  oracleCalled : Bool
deriving DecidableEq

/-- The tier-1 local check of `handleSubmit` (Button.tsx, lines 74–77):
`wordData.meanings.some(m => m.includes(normalizedInput) || normalizedInput.includes(m))`. -/
def localMatch (wordData : WordItem) (normalizedInput : String) : Bool :=
  wordData.meanings.any fun m =>
    jsIncludes m normalizedInput || jsIncludes normalizedInput m

/-- `QuizCard.handleSubmit` (Button.tsx, lines 67–97), indexed by the
behaviour of the oracle call.  `if (!input.trim()) return;` is the first
statement, before `setIsChecking(true)`: an answer that is empty after
trimming causes no state change and no verification at all.  Otherwise
the local tier runs; on a local match the result is stored with
explanation `"Correct!"` and the oracle is not called; otherwise the
result of `smartCheckAnswer` is stored.  The `catch` branch of
`handleSubmit` is unreachable because `smartCheckAnswer` never rethrows,
so it is not modelled. -/
def handleSubmit (wordData : WordItem) (input : String)
    (resp : OracleResp) : SubmitResult :=
  if jsTrim input = "" then ⟨none, false⟩
  else
    let normalizedInput := jsTrim input
    if localMatch wordData normalizedInput then
      ⟨some ⟨true, normalizedInput, some "Correct!"⟩, false⟩
    else
      let aiResult := smartCheckAnswer wordData.word wordData.meanings
        normalizedInput resp
      ⟨some ⟨aiResult.isCorrect, normalizedInput, some aiResult.explanation⟩, true⟩

/-! ### Interleaving model of the card's asynchronous verification

The oracle call inside `handleSubmit` is the only suspension point of
the quiz screen.  The states below record what the mounted `QuizCard`
can observe: the index of the word currently passed to it (`word`),
whether it is mounted at all, the stored `result` (tagged with the index
of the word whose submission produced it), and the in-flight oracle call
(`pending`, tagged with the index of the word it was submitted for and
the boolean outcome it will eventually deliver).

The step guards transcribe the rendering logic:
* a submission requires a mounted card in its input phase — `result` is
  `none` (the form is only rendered when `!result`, Button.tsx line 152)
  and no call is in flight (while `isChecking` the submit button is
  disabled and implicit form submission is blocked);
* the word index only changes through `handleContinue → onNext →
  handleNextWord`, and `handleContinue` requires a stored `result`
  (Button.tsx lines 100–104);
* when the awaited oracle call resolves on a mounted card, `setResult`
  stores its outcome unconditionally; when it resolves after the card
  was unmounted (session finished or reset), React discards the
  `setResult`, so no state is written;
* the card can be unmounted at any time (conservative: in the source
  this only happens when the session finishes or is reset). -/
structure CardSys where
  mounted : Bool
  word : Nat
  result : Option (Nat × Bool)
  pending : Option (Nat × Bool)
deriving DecidableEq

/-- The freshly mounted card on the first word. -/
def initCard : CardSys := ⟨true, 0, none, none⟩

/-- One atomic step of the cooperative interleaving described above. -/
inductive CardStep : CardSys → CardSys → Prop where
  | submitLocal (s : CardSys) (hm : s.mounted = true) (hr : s.result = none)
      (hp : s.pending = none) :
      CardStep s { s with result := some (s.word, true) }
  | submitOracle (s : CardSys) (b : Bool) (hm : s.mounted = true)
      (hr : s.result = none) (hp : s.pending = none) :
      CardStep s { s with pending := some (s.word, b) }
  | resolve (s : CardSys) (w : Nat) (b : Bool) (hm : s.mounted = true)
      (hp : s.pending = some (w, b)) :
      CardStep s { s with result := some (w, b), pending := none }
  | resolveDropped (s : CardSys) (w : Nat) (b : Bool) (hm : s.mounted = false)
      (hp : s.pending = some (w, b)) :
      CardStep s { s with pending := none }
  | advanceWord (s : CardSys) (r : Nat × Bool) (hm : s.mounted = true)
      (hr : s.result = some r) :
      CardStep s { s with word := s.word + 1, result := none }
  | unmount (s : CardSys) :
      CardStep s { s with mounted := false }

/-- The states reachable from a freshly mounted card. -/
inductive CardReach : CardSys → Prop where
  | init : CardReach initCard
  | step {s t : CardSys} : CardReach s → CardStep s t → CardReach t

/-! ### Claim-side auxiliary definitions -/

/-- The number of correct outcomes in a recorded sequence. -/
def countTrue (l : List Bool) : Nat := (l.filter fun b => b).length

/-- The length of the maximal trailing run of correct outcomes in a
recorded sequence. -/
def trailingTrue (l : List Bool) : Nat :=
  (l.reverse.takeWhile fun b => b).length

/-- Sample item used to build concrete sessions. -/
def sampleWord : WordItem :=
  ⟨"apple", "ˈæp.əl", ["苹果"], "An apple a day keeps the doctor away.", "一天一苹果，医生远离我。"⟩

/-! ### Characterisation of `runSession` -/

lemma runSession_append (ws : List WordItem) (outs : List Bool) (b : Bool) :
    runSession ws (outs ++ [b]) = handleNextWord b (runSession ws outs) := by
  simp [runSession, List.foldl_append]

lemma handleNextWord_words (b : Bool) (s : QuizState) :
    (handleNextWord b s).words = s.words := by
  unfold handleNextWord; split <;> rfl

lemma handleNextWord_totalAnswered (b : Bool) (s : QuizState) :
    (handleNextWord b s).totalAnswered = s.totalAnswered + 1 := by
  unfold handleNextWord; split <;> rfl

lemma handleNextWord_score (b : Bool) (s : QuizState) :
    (handleNextWord b s).score = s.score + (if b then 1 else 0) := by
  unfold handleNextWord; split <;> cases b <;> simp

lemma handleNextWord_streak (b : Bool) (s : QuizState) :
    (handleNextWord b s).streak = (if b then s.streak + 1 else 0) := by
  unfold handleNextWord; split <;> rfl

lemma handleNextWord_index (b : Bool) (s : QuizState) :
    (handleNextWord b s).currentWordIndex =
      if (s.currentWordIndex : Int) ≥ (s.words.length : Int) - 1
      then s.currentWordIndex else s.currentWordIndex + 1 := by
  unfold handleNextWord; split <;> rename_i h <;> simp [h]

lemma handleNextWord_finished (b : Bool) (s : QuizState) :
    (handleNextWord b s).isFinished =
      if (s.currentWordIndex : Int) ≥ (s.words.length : Int) - 1
      then true else s.isFinished := by
  unfold handleNextWord; split <;> rename_i h <;> simp [h]

lemma countTrue_append (l : List Bool) (b : Bool) :
    countTrue (l ++ [b]) = countTrue l + (if b then 1 else 0) := by
  cases b <;> simp [countTrue, List.filter_append]

lemma trailingTrue_append (l : List Bool) (b : Bool) :
    trailingTrue (l ++ [b]) = if b then trailingTrue l + 1 else 0 := by
  cases b <;> simp [trailingTrue, List.reverse_append]

lemma countTrue_le_length (l : List Bool) : countTrue l ≤ l.length :=
  List.length_filter_le _ l

/-- Every observable field of a session replayed from a fresh state:
the batch is untouched, `totalAnswered` counts the advances, `score`
counts the correct ones, `streak` is the trailing run of correct ones,
the index follows the advances but stops at the last word, and
`isFinished` is set by the advance taken at the last word (for an empty
batch, by the very first advance). -/
lemma runSession_fields (ws : List WordItem) (outs : List Bool) :
    (runSession ws outs).words = ws ∧
    (runSession ws outs).totalAnswered = outs.length ∧
    (runSession ws outs).score = countTrue outs ∧
    (runSession ws outs).streak = trailingTrue outs ∧
    (runSession ws outs).currentWordIndex = min outs.length (ws.length - 1) ∧
    ((runSession ws outs).isFinished = true ↔ max 1 ws.length ≤ outs.length) := by
  induction outs using List.reverseRecOn with
  | nil =>
      refine ⟨rfl, rfl, rfl, rfl, by simp [runSession, INITIAL_QUIZ_STATE], ?_⟩
      have hfin : (runSession ws []).isFinished = false := rfl
      rw [hfin]
      simp only [List.length_nil]
      constructor
      · intro h; cases h
      · intro h; omega
  | append_singleton l b ih =>
      obtain ⟨hw, ht, hs, hk, hi, hf⟩ := ih
      rw [runSession_append]
      refine ⟨?_, ?_, ?_, ?_, ?_, ?_⟩
      · rw [handleNextWord_words, hw]
      · rw [handleNextWord_totalAnswered, ht]; simp
      · rw [handleNextWord_score, hs, countTrue_append]
      · rw [handleNextWord_streak, hk, trailingTrue_append]
      · rw [handleNextWord_index, hw, hi]
        split <;> rename_i h <;> simp only [List.length_append, List.length_cons,
          List.length_nil] <;> omega
      · rw [handleNextWord_finished, hw, hi]
        split <;> rename_i h
        · simp only [List.length_append, List.length_cons, List.length_nil]
          constructor
          · intro _; omega
          · intro _; trivial
        · rw [hf]
          simp only [List.length_append, List.length_cons, List.length_nil]
          omega

/-! ### Claims about the advance operation (C5, C6, C2) -/

/-- C5: for every session state and every `advance` (`handleNextWord`)
call carrying outcome correctness `b`, `totalAnswered` increases by
exactly 1, `score` increases by 1 iff `b` is true, and `streak` becomes
`streak + 1` if `b` is true and `0` otherwise; hence after replaying any
sequence of `n` outcomes from a fresh session, `totalAnswered = n` and
`score` is the number of correct outcomes among them. -/
theorem claim_C5_advance_counts :
    (∀ (s : QuizState) (b : Bool),
        (handleNextWord b s).totalAnswered = s.totalAnswered + 1 ∧
        (handleNextWord b s).score = s.score + (if b then 1 else 0) ∧
        (handleNextWord b s).streak = (if b then s.streak + 1 else 0)) ∧
    (∀ (ws : List WordItem) (outs : List Bool),
        (runSession ws outs).totalAnswered = outs.length ∧
        (runSession ws outs).score = countTrue outs) := by
  constructor
  · intro s b
    exact ⟨handleNextWord_totalAnswered b s, handleNextWord_score b s,
      handleNextWord_streak b s⟩
  · intro ws outs
    obtain ⟨-, ht, hs, -, -, -⟩ := runSession_fields ws outs
    exact ⟨ht, hs⟩

/-- C6: after replaying any sequence of recorded outcomes from a fresh
session, `streak` equals the length of the maximal trailing run of
correct outcomes in that sequence; a single incorrect outcome resets it
to `0` and a correct one increments it by 1, so it is never decremented
otherwise. -/
theorem claim_C6_streak_trailing_run :
    (∀ (s : QuizState) (b : Bool),
        (handleNextWord b s).streak = (if b then s.streak + 1 else 0)) ∧
    (∀ (ws : List WordItem) (outs : List Bool),
        (runSession ws outs).streak = trailingTrue outs) := by
  refine ⟨fun s b => handleNextWord_streak b s, ?_⟩
  intro ws outs
  obtain ⟨-, -, -, hk, -, -⟩ := runSession_fields ws outs
  exact hk

/-- C2 counterexample: the session holding the single word `sampleWord`,
after one correct `advance`, is finished with `totalAnswered = 1` but
`currentWordIndex = 0`, so `totalAnswered ≤ position` fails and the
finished position is not `length(words)` — `handleNextWord` never
increments the index on the last word. -/
theorem claim_C2_counterexample :
    ¬((runSession [sampleWord] [true]).totalAnswered ≤
        (runSession [sampleWord] [true]).currentWordIndex) ∧
    (runSession [sampleWord] [true]).isFinished = true ∧
    (runSession [sampleWord] [true]).currentWordIndex ≠
      (runSession [sampleWord] [true]).words.length := by
  decide

/-- C2 (amended): for a non-empty batch and at most `length(words)`
advances (the quiz screen is unmounted once the session is finished, so
further advances are unreachable), every reachable state satisfies
`0 ≤ score ≤ totalAnswered ≤ length(words)`, the current index is
`min totalAnswered (length(words) - 1)` (hence `position ≤
totalAnswered`, not the claimed `totalAnswered ≤ position`), `finished`
is true iff `totalAnswered = length(words)`, and in the finished state
the index stays at `length(words) - 1`, not `length(words)`. -/
theorem claim_C2_reachable_invariants (ws : List WordItem) (outs : List Bool)
    (hws : ws ≠ []) (hn : outs.length ≤ ws.length) :
    (runSession ws outs).score ≤ (runSession ws outs).totalAnswered ∧
    (runSession ws outs).totalAnswered ≤ ws.length ∧
    (runSession ws outs).currentWordIndex =
      min (runSession ws outs).totalAnswered (ws.length - 1) ∧
    ((runSession ws outs).isFinished = true ↔
      (runSession ws outs).totalAnswered = ws.length) ∧
    ((runSession ws outs).isFinished = true →
      (runSession ws outs).currentWordIndex = ws.length - 1) := by
  obtain ⟨hw, ht, hs, -, hi, hf⟩ := runSession_fields ws outs
  have hL : 1 ≤ ws.length := List.length_pos.mpr hws
  have hct : countTrue outs ≤ outs.length := countTrue_le_length outs
  rw [ht, hs, hi, hf]
  refine ⟨hct, hn, rfl, by omega, ?_⟩
  intro h
  omega

/-- Second sample item, so that reachable invariants can be witnessed on
a batch of two words. -/
def sampleWord2 : WordItem :=
  ⟨"banana", "bəˈnɑː.nə", ["香蕉"], "Bananas are yellow.", "香蕉是黄色的。"⟩

/-- Witness for the amended C2 invariants: a two-word batch after one
correct advance satisfies every amended invariant. -/
theorem claim_C2_reachable_invariants_witness :
    ([sampleWord, sampleWord2] ≠ ([] : List WordItem)) ∧
    [true].length ≤ [sampleWord, sampleWord2].length ∧
    ((runSession [sampleWord, sampleWord2] [true]).score ≤
        (runSession [sampleWord, sampleWord2] [true]).totalAnswered ∧
      (runSession [sampleWord, sampleWord2] [true]).totalAnswered ≤
        [sampleWord, sampleWord2].length ∧
      (runSession [sampleWord, sampleWord2] [true]).currentWordIndex =
        min (runSession [sampleWord, sampleWord2] [true]).totalAnswered
          ([sampleWord, sampleWord2].length - 1) ∧
      ((runSession [sampleWord, sampleWord2] [true]).isFinished = true ↔
        (runSession [sampleWord, sampleWord2] [true]).totalAnswered =
          [sampleWord, sampleWord2].length) ∧
      ((runSession [sampleWord, sampleWord2] [true]).isFinished = true →
        (runSession [sampleWord, sampleWord2] [true]).currentWordIndex =
          [sampleWord, sampleWord2].length - 1)) :=
  ⟨by decide, by decide,
    claim_C2_reachable_invariants [sampleWord, sampleWord2] [true]
      (by decide) (by decide)⟩

/-! ### Claim about session start (C1) -/

/-- C1 counterexample: when the batch fetch yields an empty body,
`fetchWordBatch` returns `[]` instead of throwing, and `startGame`
installs that empty batch as a `READY` session; moreover, when the fetch
does throw, the loading state becomes `ERROR`, not `IDLE`.  So an empty
batch is not treated as a generation error, contrary to the claim. -/
theorem claim_C1_counterexample :
    (startGame .CET6 .emptyText initialAppState).loadingState = .READY ∧
    (startGame .CET6 .emptyText initialAppState).quizState.words = [] ∧
    (startGame .CET6 .fail initialAppState).loadingState ≠ .IDLE := by
  decide

/-- C1 (amended): if the batch fetch throws, `startGame` signals a
generation error (a non-empty error message) and moves the loading state
to `ERROR` — a non-ready state, though not `IDLE` — leaving the quiz
`SessionState` unchanged; but a batch of length 0 is not treated as an
error: any fetched batch, including the empty one produced by an empty
response body, is installed over a fresh session state with loading
state `READY`. -/
theorem claim_C1_start_error_handling :
    (∀ (level : VocabularyLevel) (s : AppState),
        (startGame level .fail s).quizState = s.quizState ∧
        (startGame level .fail s).loadingState = .ERROR ∧
        (startGame level .fail s).errorMsg ≠ "") ∧
    (∀ (level : VocabularyLevel) (s : AppState) (ws : List WordItem),
        (startGame level (.ok ws) s).loadingState = .READY ∧
        (startGame level (.ok ws) s).quizState =
          { INITIAL_QUIZ_STATE with words := ws }) ∧
    (∀ (level : VocabularyLevel) (s : AppState),
        (startGame level .emptyText s).loadingState = .READY ∧
        (startGame level .emptyText s).quizState =
          { INITIAL_QUIZ_STATE with words := [] }) := by
  refine ⟨fun level s => ⟨rfl, rfl, ?_⟩, fun _ _ _ => ⟨rfl, rfl⟩,
    fun _ _ => ⟨rfl, rfl⟩⟩
  show ("Failed to generate vocabulary. Please check your connection or API key." : String) ≠ ""
  decide

/-! ### Claims about answer verification (C3, C9, C10, C4) -/

lemma occursIn_nil (hay : List Char) : occursIn [] hay = true := by
  cases hay <;> simp [occursIn, listPrefixOf]

/-- When the trimmed answer is non-empty and the tier-1 local check
matches, `handleSubmit` stores a correct result without calling the
oracle. -/
lemma handleSubmit_of_localMatch (wordData : WordItem) (input : String)
    (resp : OracleResp) (hne : jsTrim input ≠ "")
    (hlm : localMatch wordData (jsTrim input) = true) :
    handleSubmit wordData input resp =
      ⟨some ⟨true, jsTrim input, some "Correct!"⟩, false⟩ := by
  unfold handleSubmit
  rw [if_neg hne]
  simp only [hlm, if_true]

/-- Item whose single accepted meaning is the two-letter string `"ab"`,
used to exercise the empty-answer early return. -/
def cexWord : WordItem := ⟨"ab", "æb", ["ab"], "ab.", "啊。"⟩

/-- C3 counterexample: the answer `" "` trims to the empty string, which
is a substring of the accepted meaning `"ab"`, so the claim's hypothesis
holds; but `handleSubmit` takes the `if (!input.trim()) return;` early
exit and stores no result at all, so verification does not return
`isCorrect:true`. -/
theorem claim_C3_counterexample :
    (∃ m ∈ cexWord.meanings, jsIncludes m (jsTrim " ") = true) ∧
    (handleSubmit cexWord " " OracleResp.fail).result = none := by
  decide

/-- C3 (amended): for every word and every answer that is non-empty
after trimming and that, after trimming, is a substring of some accepted
meaning or contains some accepted meaning as a substring, `handleSubmit`
stores `isCorrect:true` and never invokes the oracle. -/
theorem claim_C3_local_containment_accepts (wordData : WordItem)
    (input : String) (resp : OracleResp) (hne : jsTrim input ≠ "")
    (hm : ∃ m ∈ wordData.meanings,
        jsIncludes m (jsTrim input) = true ∨ jsIncludes (jsTrim input) m = true) :
    (handleSubmit wordData input resp).result =
      some ⟨true, jsTrim input, some "Correct!"⟩ ∧
    (handleSubmit wordData input resp).oracleCalled = false := by
  have hlm : localMatch wordData (jsTrim input) = true := by
    obtain ⟨m, hmem, hor⟩ := hm
    unfold localMatch
    rw [List.any_eq_true]
    refine ⟨m, hmem, ?_⟩
    rcases hor with h | h <;> simp [h]
  rw [handleSubmit_of_localMatch wordData input resp hne hlm]
  exact ⟨rfl, rfl⟩

/-- Item with the accepted meaning `"一种水果"`, from the spec's worked
scenario. -/
def fruitWord : WordItem :=
  ⟨"fruit", "fruːt", ["一种水果"], "Fruit is sweet.", "水果是甜的。"⟩

/-- Witness for the amended C3: the answer `" 水果 "` trims to `"水果"`,
a substring of the accepted meaning `"一种水果"`; `handleSubmit` accepts
it locally and the oracle is not called. -/
theorem claim_C3_local_containment_accepts_witness :
    (jsTrim " 水果 " ≠ "") ∧
    (∃ m ∈ fruitWord.meanings,
        jsIncludes m (jsTrim " 水果 ") = true ∨
        jsIncludes (jsTrim " 水果 ") m = true) ∧
    ((handleSubmit fruitWord " 水果 " OracleResp.fail).result =
        some ⟨true, jsTrim " 水果 ", some "Correct!"⟩ ∧
      (handleSubmit fruitWord " 水果 " OracleResp.fail).oracleCalled = false) :=
  ⟨by decide, by decide,
    claim_C3_local_containment_accepts fruitWord " 水果 " OracleResp.fail
      (by decide) (by decide)⟩

/-- C9: an answer that is empty after trimming is rejected by the
explicit guard `if (!input.trim()) return;` before any state change: no
result is stored, neither the local tier nor the oracle runs, and the
submission leaves the card (and hence the session) unchanged. -/
theorem claim_C9_empty_answer_rejected (wordData : WordItem) (input : String)
    (resp : OracleResp) (h : jsTrim input = "") :
    handleSubmit wordData input resp = ⟨none, false⟩ := by
  unfold handleSubmit
  rw [if_pos h]

/-- Witness for C9 at the all-whitespace answer `"   "`. -/
theorem claim_C9_empty_answer_rejected_witness :
    jsTrim "   " = "" ∧
    handleSubmit sampleWord "   " OracleResp.fail = ⟨none, false⟩ :=
  ⟨by decide,
    claim_C9_empty_answer_rejected sampleWord "   " OracleResp.fail (by decide)⟩

/-- C10: if some accepted meaning of the current word is the empty
string, then every answer that is non-empty after trimming matches the
local tier (the empty string is a substring of every answer), so
`handleSubmit` stores `isCorrect:true` and the oracle is never
consulted, whatever the answer's content. -/
theorem claim_C10_empty_meaning_accepts_all (wordData : WordItem)
    (input : String) (resp : OracleResp) (hmem : "" ∈ wordData.meanings)
    (hne : jsTrim input ≠ "") :
    (handleSubmit wordData input resp).result =
      some ⟨true, jsTrim input, some "Correct!"⟩ ∧
    (handleSubmit wordData input resp).oracleCalled = false := by
  have hlm : localMatch wordData (jsTrim input) = true := by
    unfold localMatch
    rw [List.any_eq_true]
    refine ⟨"", hmem, ?_⟩
    have h0 : ("" : String).data = [] := rfl
    simp [jsIncludes, h0, occursIn_nil]
  rw [handleSubmit_of_localMatch wordData input resp hne hlm]
  exact ⟨rfl, rfl⟩

/-- Item whose meanings list contains the empty string. -/
def emptyMeaningWord : WordItem := ⟨"x", "eks", ["", "别的"], "x.", "。"⟩

/-- Witness for C10: with an empty accepted meaning, the unrelated
answer `"随便写"` is accepted locally without consulting the oracle. -/
theorem claim_C10_empty_meaning_accepts_all_witness :
    "" ∈ emptyMeaningWord.meanings ∧
    jsTrim "随便写" ≠ "" ∧
    ((handleSubmit emptyMeaningWord "随便写" OracleResp.fail).result =
        some ⟨true, jsTrim "随便写", some "Correct!"⟩ ∧
      (handleSubmit emptyMeaningWord "随便写" OracleResp.fail).oracleCalled = false) :=
  ⟨by decide, by decide,
    claim_C10_empty_meaning_accepts_all emptyMeaningWord "随便写"
      OracleResp.fail (by decide) (by decide)⟩

/-- C4 counterexample: for the word `"go"` with accepted meaning `"去"`
and answer `"去"`, an oracle call that yields an empty response makes
`smartCheckAnswer` return `isCorrect:false` with explanation `"无法验证"`,
even though the bidirectional-containment heuristic on this answer and
meanings yields `true` — so for empty/malformed responses the outcome
does not equal the heuristic. -/
theorem claim_C4_counterexample :
    smartCheckAnswer "go" ["去"] "去" OracleResp.emptyText =
      ⟨false, "无法验证"⟩ ∧
    strictMatch ["去"] "去" = true := by
  decide

/-- C4 (amended): `smartCheckAnswer` never propagates a failure — it is
a total function on every oracle behaviour.  When the oracle call throws
(unreachable service or unparseable response), the outcome's `isCorrect`
equals the bidirectional-containment heuristic, with explanation
`"Local match"` when the heuristic matches and the degraded tag
`"API Error"` otherwise; but when the oracle returns an empty response
body, the outcome is always `isCorrect:false` with explanation
`"无法验证"`, regardless of the heuristic. -/
theorem claim_C4_failure_fallback :
    (∀ (word : String) (correctMeanings : List String) (userAnswer : String),
        smartCheckAnswer word correctMeanings userAnswer OracleResp.fail =
          ⟨strictMatch correctMeanings userAnswer,
            if strictMatch correctMeanings userAnswer then "Local match"
            else "API Error"⟩) ∧
    (∀ (word : String) (correctMeanings : List String) (userAnswer : String),
        smartCheckAnswer word correctMeanings userAnswer OracleResp.emptyText =
          ⟨false, "无法验证"⟩) :=
  ⟨fun _ _ _ => rfl, fun _ _ _ => rfl⟩

/-! ### Claim about result aggregation (C7) -/

/-- C7: for every finished session over a non-empty batch, the accuracy
figure rendered by `renderResult` equals
`round(100 * score / length(words))`. -/
theorem claim_C7_accuracy_rounding (s : QuizState) (_hfin : s.isFinished = true)
    (_hpos : 0 < s.words.length) :
    accuracyPercent s = round (100 * (s.score : ℚ) / (s.words.length : ℚ)) := by
  unfold accuracyPercent jsMathRound
  rw [round_eq]
  congr 1
  ring

/-- The spec's worked example: a five-word session with three correct
answers. -/
def finishedFiveSession : QuizState :=
  runSession [sampleWord, sampleWord, sampleWord, sampleWord, sampleWord]
    [true, true, true, false, false]

/-- Witness for C7: the five-word session with `score = 3` is finished,
its accuracy equals `round(100 * 3 / 5)`, and that value is `60`. -/
theorem claim_C7_accuracy_rounding_witness :
    finishedFiveSession.isFinished = true ∧
    0 < finishedFiveSession.words.length ∧
    accuracyPercent finishedFiveSession =
      round (100 * (finishedFiveSession.score : ℚ) /
        (finishedFiveSession.words.length : ℚ)) ∧
    accuracyPercent finishedFiveSession = 60 := by
  refine ⟨by decide, by decide,
    claim_C7_accuracy_rounding finishedFiveSession (by decide) (by decide), ?_⟩
  have hs : finishedFiveSession.score = 3 := by decide
  have hl : finishedFiveSession.words.length = 5 := by decide
  unfold accuracyPercent jsMathRound
  rw [hs, hl]
  norm_num

/-! ### Claim about stale oracle resolutions (C8) -/

/-- C8: in every reachable state of the card's cooperative interleaving,
an in-flight oracle call is always tagged with the word currently
displayed, and no result is stored while it is in flight.  Hence the
unconditional `setResult` that runs when the awaited call resolves on a
mounted card can only ever apply the outcome to the very word it was
submitted for — an outcome that resolves after the caller has moved on
is never applied (after an unmount, the `resolveDropped` step writes
nothing at all): advancing to a different word requires a stored result,
which requires the in-flight call to have resolved first. -/
theorem claim_C8_no_stale_outcome (s : CardSys) (h : CardReach s) :
    ∀ (w : Nat) (b : Bool), s.pending = some (w, b) →
      s.word = w ∧ s.result = none := by
  induction h with
  | init =>
      intro w b hp
      have hp' : (none : Option (Nat × Bool)) = some (w, b) := hp
      exact Option.noConfusion hp'
  | step hre hstep ih =>
      rename_i s t
      cases hstep with
      | submitLocal hm hr hp =>
          intro w b hpend
          have hpend' : s.pending = some (w, b) := hpend
          rw [hp] at hpend'
          exact Option.noConfusion hpend'
      | submitOracle b hm hr hp =>
          intro w b' hpend
          have hpend' : (some (s.word, b) : Option (Nat × Bool)) = some (w, b') :=
            hpend
          simp only [Option.some.injEq, Prod.mk.injEq] at hpend'
          exact ⟨hpend'.1, hr⟩
      | resolve w b hm hp =>
          intro w' b' hpend
          have hpend' : (none : Option (Nat × Bool)) = some (w', b') := hpend
          exact Option.noConfusion hpend'
      | resolveDropped w b hm hp =>
          intro w' b' hpend
          have hpend' : (none : Option (Nat × Bool)) = some (w', b') := hpend
          exact Option.noConfusion hpend'
      | advanceWord r hm hr =>
          intro w b hpend
          have hres : s.result = none := (ih w b hpend).2
          rw [hres] at hr
          exact Option.noConfusion hr
      | unmount =>
          intro w b hpend
          exact ih w b hpend

/-- Witness for C8: the state reached by submitting an oracle-tier
answer on the first word has a pending call tagged with word 0 — the
word still displayed — and no stored result. -/
theorem claim_C8_no_stale_outcome_witness :
    (CardSys.mk true 0 none (some (0, true))).word = 0 ∧
    (CardSys.mk true 0 none (some (0, true))).result = none :=
  claim_C8_no_stale_outcome (CardSys.mk true 0 none (some (0, true)))
    (CardReach.step CardReach.init
      (CardStep.submitOracle initCard true rfl rfl rfl)) 0 true rfl
